import Mathlib

/-!
Verification of the pygritbx gear-train library against its specification.

The development shallowly embeds the Python sources in Lean:
* vectors and the `Force` / `Torque` data holders become `V3`-based structures
  over exact rationals (the Python floats are idealized as `ℚ`);
* external numeric library calls (`math.sqrt`, `math.tan`, `math.cos`,
  `numpy` trigonometry, the scipy Akima interpolant) are passed in as
  function parameters, since the repository treats them as black boxes;
* in-place mutation of components, meshes and shafts becomes explicit state
  passing over a `Sys` record;
* Python exceptions (`ValueError`, `AttributeError`, `IndexError`) become an
  explicit `PyErr` error type with `Except`.
-/

/-- Componentwise 3-vector of rationals, embedding the numpy 3-arrays used
throughout the sources. -/
structure V3 where
  x : ℚ
  y : ℚ
  z : ℚ
deriving DecidableEq, Repr

def V3.zero : V3 := ⟨0, 0, 0⟩

instance : Add V3 := ⟨fun a b => ⟨a.x + b.x, a.y + b.y, a.z + b.z⟩⟩

instance : Neg V3 := ⟨fun a => ⟨-a.x, -a.y, -a.z⟩⟩

instance : Sub V3 := ⟨fun a b => ⟨a.x - b.x, a.y - b.y, a.z - b.z⟩⟩

instance : SMul ℚ V3 := ⟨fun c a => ⟨c * a.x, c * a.y, c * a.z⟩⟩

/-- Embedding of `np.cross` on 3-vectors. -/
def V3.cross (a b : V3) : V3 :=
  ⟨a.y * b.z - a.z * b.y, a.z * b.x - a.x * b.z, a.x * b.y - a.y * b.x⟩

/-- Embedding of componentwise `np.abs`. -/
def V3.habs (a : V3) : V3 := ⟨|a.x|, |a.y|, |a.z|⟩

/-- Embedding of componentwise array multiplication (`*` on numpy arrays). -/
def V3.hmul (a b : V3) : V3 := ⟨a.x * b.x, a.y * b.y, a.z * b.z⟩

/-- Embedding of `np.sum` on a 3-vector. -/
def V3.sum (a : V3) : ℚ := a.x + a.y + a.z

/-- Embedding of `np.sign` on a scalar. -/
def ratSign (q : ℚ) : ℚ := if 0 < q then 1 else if q < 0 then -1 else 0

/-- Stand-in for `math.sqrt`; exact on perfect squares, which is all the
concrete evaluations below need. -/
def ratSqrt (q : ℚ) : ℚ := (Nat.sqrt q.num.natAbs : ℚ) / (Nat.sqrt q.den : ℚ)

@[simp] theorem V3.add_def (a b : V3) :
    a + b = ⟨a.x + b.x, a.y + b.y, a.z + b.z⟩ := rfl

@[simp] theorem V3.neg_def (a : V3) : -a = ⟨-a.x, -a.y, -a.z⟩ := rfl

@[simp] theorem V3.sub_def (a b : V3) :
    a - b = ⟨a.x - b.x, a.y - b.y, a.z - b.z⟩ := rfl

@[simp] theorem V3.smul_def (c : ℚ) (a : V3) :
    c • a = ⟨c * a.x, c * a.y, c * a.z⟩ := rfl

/-- Embedding of the `Force` class (force.py): a force vector and its
application point. -/
structure Force where
  force : V3
  loc : V3
deriving DecidableEq, Repr

/-- Embedding of the `Torque` class: a torque vector and its application
point.  (torque.py is not under src/; its shape is fixed by the spec's
"Vector Quantities" section and by every use in gear.py.) -/
structure Torque where
  torque : V3
  loc : V3
deriving DecidableEq, Repr

/-- Modelled from the spec: the `moment` operation of the vector-quantity
classes is missing from src/ (torque.py and the full force.py are absent);
spec §4.1 defines it as `cross(force, (application_location −
reference_location) scaled to consistent length units) projected by
elementwise multiplication with |axis|`, and the comment at gear.py:193
fixes the scale to `1e-3`. -/
def Force.moment (f : Force) (location axis : V3) : V3 :=
  V3.hmul (V3.cross f.force ((1/1000 : ℚ) • (f.loc - location))) (V3.habs axis)

/-- Generic embedding of the dedup-append loop shared verbatim by
`Component.updateEFs` and `Component.updateETs` (component.py lines 41-50):
append each incoming element that is not already a member. -/
def updateList {α : Type} [DecidableEq α] (cur new : List α) : List α :=
  new.foldl (fun acc e => if e ∈ acc then acc else acc ++ [e]) cur

/-- Embedding of `Component.updateEFs`. -/
def updateEFs (cur new : List Force) : List Force := updateList cur new

/-- Embedding of `Component.updateETs`. -/
def updateETs (cur new : List Torque) : List Torque := updateList cur new

/-- Embedding of `Component.checkForceEquilibrium` (component.py lines
27-34): sum the external force vectors and compare each component against
`1e-3` (the comparison in the source is signed: `all(eq <= 1e-3)` with no
`np.abs`). `true` stands for the "maintains a force equilibrium" report. -/
def checkForceEquilibrium (efs : List Force) : Bool :=
  let eq := efs.foldl (fun a f => a + f.force) V3.zero
  decide (eq.x ≤ 1/1000) && decide (eq.y ≤ 1/1000) && decide (eq.z ≤ 1/1000)

theorem updateList_cons {α : Type} [DecidableEq α] (cur : List α) (e : α)
    (tl : List α) :
    updateList cur (e :: tl) =
      updateList (if e ∈ cur then cur else cur ++ [e]) tl := rfl

theorem updateList_extends {α : Type} [DecidableEq α] (new cur : List α) :
    ∃ rest, updateList cur new = cur ++ rest := by
  induction new generalizing cur with
  | nil => exact ⟨[], by simp [updateList]⟩
  | cons e tl ih =>
    rw [updateList_cons]
    by_cases he : e ∈ cur
    · simpa [he] using ih cur
    · obtain ⟨r, hr⟩ := ih (cur ++ [e])
      exact ⟨e :: r, by simp [he, hr]⟩

theorem updateList_count_of_mem {α : Type} [DecidableEq α] (new : List α) :
    ∀ (cur : List α) (a : α), a ∈ cur →
      (updateList cur new).count a = cur.count a := by
  induction new with
  | nil => intro cur a _; rfl
  | cons e tl ih =>
    intro cur a ha
    rw [updateList_cons]
    by_cases he : e ∈ cur
    · simpa [he] using ih cur a ha
    · have hne : (e == a) = false := by
        simp only [beq_eq_false_iff_ne]
        intro h; exact he (h ▸ ha)
      have ha' : a ∈ cur ++ [e] := List.mem_append_left _ ha
      simp only [he, if_false]
      rw [ih (cur ++ [e]) a ha', List.count_append]
      simp [List.count_cons, hne]

/-- State of a `Mesh` collaborator as consumed by `Gear.solve` and
`Gear.calculateForces` (gear.py): force fields `F_t`, `F_r`, `F_a`, the
resultant `F`, the radiality vectors, the mesh location and the name of the
driving gear (the source compares gear names, `self.name ==
mesh.drivingGear.name`). -/
structure MeshState where
  name : String
  drivingGearName : String
  radiality : List V3
  loc : V3
  Ft : Force
  Fr : Force
  Fa : Force
  F : Force
deriving DecidableEq, Repr

/-- Shared mutable state reached from one gear during `solve`: the gear's own
EFs/ETs, its meshes, and the owning shaft's EFs/ETs.  Geometric quantities the
force split consumes are carried as the values the Python attributes hold at
call time: `d`, `d_av`, and the trigonometric values `tan(phi_n)`,
`cos(psi)`, `sign(psi)`, `tan(|psi|)`, `cos(gamma)`, `sin(gamma)`,
`tan(|phi_n|)` (the Python code computes these with `math` calls on the
constructor-stored angles; floating trigonometry is abstracted to the
rational values it produced). -/
structure Sys where
  gearName : String
  gearAxis : V3
  gearAbsLoc : V3
  gearEFs : List Force
  gearETs : List Torque
  meshes : List MeshState
  shaftAxis : V3
  shaftEFs : List Force
  shaftETs : List Torque
  d : ℚ
  dAv : ℚ
  tanPhiN : ℚ
  cosPsi : ℚ
  signPsi : ℚ
  tanAbsPsi : ℚ
  cosGamma : ℚ
  sinGamma : ℚ
  tanAbsPhiN : ℚ
deriving DecidableEq, Repr

/-- Outcome reported by `Gear.solve` (the Python function prints these as
console status messages and returns `None`). -/
inductive SolveStatus where
  | unconfigured
  | nothingToSolve
  | notSolvable
  | solvedTorque
  | solvedForce
  | noUnknowns
deriving DecidableEq, Repr

/-- Embedding of `Gear.checkTorqueEquilibrium` (gear.py lines 180-199):
`false` when both EFs and ETs are empty; otherwise sum the external torques
plus the moments of the external forces about the gear's absolute location
along its axis and compare `|eq| <= 1e-3` componentwise. -/
def checkTorqueEquilibrium (s : Sys) : Bool :=
  if s.gearEFs.isEmpty && s.gearETs.isEmpty then false
  else
    let eq0 := s.gearETs.foldl (fun a t => a + t.torque) V3.zero
    let eq := s.gearEFs.foldl (fun a f => a + f.moment s.gearAbsLoc s.gearAxis) eq0
    decide (|eq.x| ≤ 1/1000) && decide (|eq.y| ≤ 1/1000) && decide (|eq.z| ≤ 1/1000)

/-- Result of the classification pass inside `Gear.solve` (gear.py lines
147-163): the torque-unknown count, the mesh-force-unknown count, the last
zero-force mesh seen, and the gear's EFs as they stand after the loop
(the loop registers each already-resolved mesh force into the gear's EFs
while counting). -/
structure Classification where
  unknownTs : ℕ
  unknownFs : ℕ
  unknownMesh : Option MeshState
  efs : List Force
deriving Repr

/-- One iteration of the classification loop of `Gear.solve`: either count a
force unknown (the mesh resultant force is the zero vector) or register the
known mesh force into the gear's EFs, sign-flipped when this gear is the
mesh's driving gear. -/
def classifyStep (s : Sys) (c : Classification) (mesh : MeshState) :
    Classification :=
  if mesh.F.force = V3.zero then
    { c with unknownFs := c.unknownFs + 1, unknownMesh := some mesh }
  else
    let sign : ℚ := if s.gearName = mesh.drivingGearName then -1 else 1
    { c with efs := updateEFs c.efs [⟨sign • mesh.F.force, mesh.F.loc⟩] }

/-- Embedding of the classification loop of `Gear.solve`: one torque unknown
if ETs is empty, then fold `classifyStep` over the meshes. -/
def classifySolvability (s : Sys) : Classification :=
  s.meshes.foldl (classifyStep s)
    ⟨if s.gearETs.isEmpty then 1 else 0, 0, none, s.gearEFs⟩

/-- Embedding of `Gear.calculateTorque` (gear.py lines 202-206): accumulate
`-moment` over all external forces into a fresh torque at the gear's absolute
location and dedup-append it to the gear's ETs. -/
def calculateTorqueSys (s : Sys) : Sys :=
  let tq := s.gearEFs.foldl
    (fun a ef => a - ef.moment s.gearAbsLoc s.gearAxis) V3.zero
  { s with gearETs := updateETs s.gearETs [⟨tq, s.gearAbsLoc⟩] }

/-- Net torque `ET` used by `Gear.calculateForces` (gear.py lines 210-212):
start from `ETs[0]` and subtract the moment of every external force. -/
def netTorque (s : Sys) : V3 :=
  s.gearEFs.foldl (fun a ef => a - ef.moment s.gearAbsLoc s.gearAxis)
    (s.gearETs.headD ⟨V3.zero, V3.zero⟩).torque

/-- Sign convention of `Gear.calculateForces`: `-1` when this gear is the
mesh's driving gear, `+1` otherwise. -/
def meshSign (s : Sys) (mesh : MeshState) : ℚ :=
  if s.gearName = mesh.drivingGearName then -1 else 1

/-- Raw intermediate values `F_t`, `F_r`, `F_a` of the single-radiality
branch of `Gear.calculateForces` (gear.py lines 216-224), before the sign /
negation adjustments applied when they are stored on the mesh. -/
def rawSplitSingle (sqrtq : ℚ → ℚ) (s : Sys) (mesh : MeshState) : V3 × V3 × V3 :=
  let ET := netTorque s
  let sign := meshSign s mesh
  let radiality := mesh.radiality.getD 0 V3.zero
  let Ft := (1000 : ℚ) • V3.cross ET ((2 / s.d) • radiality)
  let magFt := sqrtq (Ft.x * Ft.x + Ft.y * Ft.y + Ft.z * Ft.z)
  let Fr := (sign * magFt * s.tanPhiN / s.cosPsi) • radiality
  let Fa := (ratSign (V3.sum s.shaftAxis) * s.signPsi) •
    V3.habs (V3.cross radiality (s.tanAbsPsi • Ft))
  (Ft, Fr, Fa)

/-- Raw intermediate values of the dual-radiality branch of
`Gear.calculateForces` (gear.py lines 228-238). -/
def rawSplitDual (sqrtq : ℚ → ℚ) (s : Sys) (mesh : MeshState) : V3 × V3 × V3 :=
  let ET := netTorque s
  let sign := meshSign s mesh
  let radiality := if sign = 1 then mesh.radiality.getD 1 V3.zero
    else mesh.radiality.getD 0 V3.zero
  let Ft := (1000 : ℚ) • V3.cross ET ((2 / s.dAv) • radiality)
  let magFt := sqrtq (Ft.x * Ft.x + Ft.y * Ft.y + Ft.z * Ft.z)
  let Fr := (sign * magFt * s.tanPhiN * s.cosGamma) • radiality
  let Fa := sign • V3.cross radiality ((s.tanAbsPhiN * s.sinGamma) • Ft)
  (Ft, Fr, Fa)

/-- The mesh record as `Gear.calculateForces` leaves it: the stored fields
are `F_t := sign·F_t`, `F_r := sign·F_r`, `F_a := −F_a`, and the resultant
`F := F_t + F_r + F_a` of the three stored components (gear.py lines
219-226 and 233-240; the locations of the stored force objects are not
touched). -/
def updatedMesh (sqrtq : ℚ → ℚ) (s : Sys) (mesh : MeshState) : MeshState :=
  let sign := meshSign s mesh
  let raw := if mesh.radiality.length = 1 then rawSplitSingle sqrtq s mesh
    else rawSplitDual sqrtq s mesh
  let Ft' : Force := ⟨sign • raw.1, mesh.Ft.loc⟩
  let Fr' : Force := ⟨sign • raw.2.1, mesh.Fr.loc⟩
  let Fa' : Force := ⟨-raw.2.2, mesh.Fa.loc⟩
  { mesh with
    Ft := Ft', Fr := Fr', Fa := Fa',
    F := ⟨Ft'.force + Fr'.force + Fa'.force, mesh.F.loc⟩ }

/-- Force registered into the resolving gear's EFs by
`Gear.calculateForces`: `Force(F_t + F_r + F_a, mesh.loc)` built from the
raw intermediate values (gear.py lines 225 and 239). -/
def registeredForce (sqrtq : ℚ → ℚ) (s : Sys) (mesh : MeshState) : Force :=
  let raw := if mesh.radiality.length = 1 then rawSplitSingle sqrtq s mesh
    else rawSplitDual sqrtq s mesh
  ⟨raw.1 + raw.2.1 + raw.2.2, mesh.loc⟩

/-- Embedding of `Gear.calculateForces` (gear.py lines 209-240) as a state
transformer: update the mesh force fields in place (the mesh is shared, so
every list entry with the resolved mesh's name is replaced) and dedup-append
the combined raw force at the mesh location into the gear's EFs. -/
def calculateForcesSys (sqrtq : ℚ → ℚ) (s : Sys) (mesh : MeshState) : Sys :=
  { s with
    gearEFs := updateEFs s.gearEFs [registeredForce sqrtq s mesh],
    meshes := s.meshes.map
      (fun m => if m.name = mesh.name then updatedMesh sqrtq s mesh else m) }

/-- Embedding of `Gear.solve` (gear.py lines 143-177).  The status value
stands for the console report the Python function prints on the
corresponding path; the returned `Sys` is the shared state after the call. -/
def solve (sqrtq : ℚ → ℚ) (s : Sys) : SolveStatus × Sys :=
  if s.meshes.isEmpty then (.unconfigured, s)
  else if checkTorqueEquilibrium s then (.nothingToSolve, s)
  else
    let c := classifySolvability s
    let s1 := { s with gearEFs := c.efs }
    if 1 < c.unknownFs + c.unknownTs then (.notSolvable, s1)
    else if c.unknownTs = 1 then
      let s2 := calculateTorqueSys s1
      (.solvedTorque, { s2 with shaftETs := updateETs s2.shaftETs s2.gearETs })
    else if c.unknownFs = 1 then
      match c.unknownMesh with
      | some m =>
        let s2 := calculateForcesSys sqrtq s1 m
        (.solvedForce, { s2 with shaftEFs := updateEFs s2.shaftEFs s2.gearEFs })
      | none => (.noUnknowns, s1)
    else (.noUnknowns, s1)

theorem updateList_count_le_one {α : Type} [DecidableEq α] (new : List α) :
    ∀ (cur : List α) (a : α), cur.count a ≤ 1 →
      (updateList cur new).count a ≤ 1 := by
  induction new with
  | nil => intro cur a h; exact h
  | cons e tl ih =>
    intro cur a h
    rw [updateList_cons]
    by_cases he : e ∈ cur
    · simpa [he] using ih cur a h
    · simp only [he, if_false]
      refine ih (cur ++ [e]) a ?_
      rw [List.count_append]
      by_cases hea : e = a
      · subst hea
        have : cur.count e = 0 := by
          simpa using List.count_eq_zero.mpr he
        simp [this]
      · have hne : (e == a) = false := by simpa using hea
        simp [List.count_cons, hne, h]

/-- External trigonometric collaborators of the `Gear` constructor
(`math.pi`, `math.cos`, `math.tan`, `math.atan`), abstracted as rational
stand-ins for the floating-point functions. -/
structure TrigParams where
  piq : ℚ
  cosq : ℚ → ℚ
  tanq : ℚ → ℚ
  atanq : ℚ → ℚ

/-- Derived geometric fields of a `Gear` (gear.py constructor). -/
structure GearGeo where
  psi : ℚ
  phi_n : ℚ
  p_n : ℚ
  p_t : ℚ
  p_x : ℚ
  m_t : ℚ
  d : ℚ
  phi_t : ℚ
  z_p : ℤ
  phi_b : ℚ
  h_a : ℚ
  h_f : ℚ
  h : ℚ
  d_a : ℚ
  d_f : ℚ
deriving DecidableEq, Repr

/-- Embedding of the geometric derivations of `Gear.__init__` (gear.py lines
114-139): angles are converted from degrees to radians, and the axial pitch
`p_x` is guarded by `if psi != 0` on the degree-valued constructor argument,
with `p_x = 0` in the `else` branch. -/
def gearGeometry (t : TrigParams) (m_n z psi_deg phi_n_deg : ℚ) : GearGeo :=
  let psi := psi_deg * t.piq / 180
  let phi_n := phi_n_deg * t.piq / 180
  let p_n := m_n * t.piq
  let p_t := p_n / t.cosq psi
  let p_x := if psi_deg ≠ 0 then p_t / t.tanq psi else 0
  let m_t := m_n / t.cosq psi
  let d := m_t * z
  let phi_t := t.atanq (t.tanq phi_n / t.cosq psi)
  let z_p := ⌈z / (t.cosq psi) ^ 3⌉
  let phi_b := t.atanq (t.tanq psi * t.cosq phi_n)
  let h_a := m_n
  let h_f := 5/4 * m_n
  let h := h_a + h_f
  ⟨psi, phi_n, p_n, p_t, p_x, m_t, d, phi_t, z_p, phi_b, h_a, h_f, h,
    d + 2 * h_a, d - 2 * h_f⟩

/-- Embedding of `Makima2DInterpolator._akima_with_extrapolation`
(makima2dInterpolator.py lines 20-40).  The scipy `Akima1DInterpolator` is an
external collaborator, passed in as the function `akima`; the wrapper first
takes its value and then overwrites it for queries outside the sample range:
first the left mask (`xq < x[0]`) with the first segment's secant slope, then
the right mask (`xq > x[-1]`) with the last segment's secant slope.  The
right overwrite is applied second in the source, so it takes precedence; the
nested conditional below realizes exactly that final value. -/
def akimaWithExtrapolation (akima : ℚ → ℚ) (x yvals : List ℚ) (xq : ℚ) : ℚ :=
  if x.getD (x.length - 1) 0 < xq then
    yvals.getD (yvals.length - 1) 0 +
      (yvals.getD (yvals.length - 1) 0 - yvals.getD (yvals.length - 2) 0) /
          (x.getD (x.length - 1) 0 - x.getD (x.length - 2) 0) *
        (xq - x.getD (x.length - 1) 0)
  else if xq < x.getD 0 0 then
    yvals.getD 0 0 +
      (yvals.getD 1 0 - yvals.getD 0 0) / (x.getD 1 0 - x.getD 0 0) *
        (xq - x.getD 0 0)
  else akima xq

/-- Python exception outcomes of the analysis pipelines. -/
inductive PyErr where
  | valueError (msg : String)
  | attributeError (attr : String)
  | indexError
deriving DecidableEq, Repr

/-- The fixed 5-point reliability table `Gear.rel_ref` (gear.py line 104). -/
def relRef : List ℚ := [9999/10000, 999/1000, 99/100, 9/10, 1/2]

/-- The paired reliability-factor values `Gear.YZ_ref` (gear.py line 105). -/
def yzRef : List ℚ := [3/2, 5/4, 1, 17/20, 7/10]

/-- Attribute state of a gear relevant to `calculateBendingSF`: on a freshly
constructed gear none of these attributes exist (the constructor never
assigns them), modelled as `none`. -/
structure BendState where
  sigma_FP : Option ℚ
  Y_N : Option ℚ
  Y_theta : Option ℚ
  Y_Z : Option ℚ
  sigma_max_fatigue : Option ℚ
  bendingSF : Option ℚ
deriving DecidableEq, Repr

/-- Attribute state of a freshly constructed gear. -/
def freshBend : BendState := ⟨none, none, none, none, none, none⟩

/-- First-match paired table lookup, embedding
`YZ_ref[np.where(rel_ref == rel)][0]`: walk the reliability samples and their
paired factor values in step and return the value paired with the first
exact match. -/
def lookupFirst (rel : ℚ) : List ℚ → List ℚ → Option ℚ
  | r :: rs, y :: ys => if rel = r then some y else lookupFirst rel rs ys
  | _, _ => none

/-- Embedding of `Gear.calculateBendingSF` (gear.py lines 338-348).

Statement-by-statement: `sigma_FP` and `Y_N = b_YN * N ** e_YN` are assigned
(the float power is the external parameter `powq`); `Y_theta` is assigned `1`
only under `temp <= 120` (no `else` branch); `Y_Z` is the paired table value
when `rel` is exactly a `rel_ref` entry (`np.where` picks the first match).
Otherwise the source evaluates `np.interp(rel, rel_ref, YZ_ref)[0]`: with a
scalar `rel`, `np.interp` returns a numpy scalar, and subscripting a scalar
with `[0]` raises `IndexError`, so no value is ever produced on that branch
(moreover `rel_ref` is strictly decreasing while `np.interp` requires an
increasing sample sequence, so the scalar being subscripted is a clipped
endpoint, not an interpolated value).  Finally the safety-factor expression
reads `sigma_max_fatigue`, `Y_theta` and `Y_Z` left to right; an attribute
that was never assigned raises `AttributeError` at that point.  The function
returns the mutated attribute state plus the outcome. -/
def calcBendingSF (powq : ℚ → ℚ → ℚ) (st : BendState)
    (sigma_FP b_YN e_YN N temp rel : ℚ) : BendState × Except PyErr ℚ :=
  let ynVal := b_YN * powq N e_YN
  let st1 := { st with sigma_FP := some sigma_FP, Y_N := some ynVal }
  let st2 := if temp ≤ 120 then { st1 with Y_theta := some 1 } else st1
  if rel ∈ relRef then
    let yzVal := (lookupFirst rel relRef yzRef).getD 0
    let st3 := { st2 with Y_Z := some yzVal }
    match st3.sigma_max_fatigue with
    | none => (st3, .error (.attributeError "sigma_max_fatigue"))
    | some smf =>
      match st3.Y_theta with
      | none => (st3, .error (.attributeError "Y_theta"))
      | some yth =>
        let v := sigma_FP * ynVal / smf / yth / yzVal
        ({ st3 with bendingSF := some v }, .ok v)
  else
    (st2, .error .indexError)

/-- Embedding of the surface-strength geometry factor step of
`Gear.calculateSigmaMaxPitting` (gear.py lines 402-407): branch on the mesh
type string, with the literal division chain `cos(phi_t) * sin(phi_t) * m_G
/ 2 / m_N / (m_G ± 1)`; an unrecognized type raises
`ValueError("Gear mesh type invalid.")`.  The floating cosine and sine of
`phi_t` are abstracted as the rational inputs `cphi` and `sphi`. -/
def calcZI (cphi sphi mN mG : ℚ) (meshType : String) : Except PyErr ℚ :=
  if meshType = "External" then .ok (cphi * sphi * mG / 2 / mN / (mG + 1))
  else if meshType = "Internal" then .ok (cphi * sphi * mG / 2 / mN / (mG - 1))
  else .error (.valueError "Gear mesh type invalid.")

/-- Claim C4: evaluation of `Component.checkForceEquilibrium` at a net force of
`(-5, 0, 0)` N.  The source compares the signed sum componentwise
(`all(eq <= 1e-3)`, without `np.abs`), so it reports "maintains a force
equilibrium" even though the x-component of the sum has absolute value `5`,
far above the `1e-3` tolerance the claim (and the sibling torque check,
which does use `np.abs`) prescribe. -/
theorem c4_checkForceEquilibrium_eval :
    checkForceEquilibrium [⟨⟨-5, 0, 0⟩, ⟨0, 0, 0⟩⟩] = true ∧
    ¬ (|(-5 : ℚ)| ≤ 1/1000) := by
  constructor
  · simp only [checkForceEquilibrium, List.foldl, V3.zero, V3.add_def,
      Bool.and_eq_true, decide_eq_true_eq]
    norm_num
  · norm_num

/-- Claim C5: `calculateSigmaMaxPitting` computes the surface-strength geometry
factor as `Z_I = cos(phi_t)·sin(phi_t)·m_G / (2·m_N·(m_G + 1))` for mesh
type "External", the same expression with `(m_G − 1)` for "Internal", and
raises the categorical `ValueError` for every other mesh-type string. -/
theorem c5_ZI_mesh_type (cphi sphi mN mG : ℚ) (ty : String) :
    calcZI cphi sphi mN mG "External" =
      .ok (cphi * sphi * mG / (2 * mN * (mG + 1))) ∧
    calcZI cphi sphi mN mG "Internal" =
      .ok (cphi * sphi * mG / (2 * mN * (mG - 1))) ∧
    (ty ≠ "External" → ty ≠ "Internal" →
      calcZI cphi sphi mN mG ty =
        .error (.valueError "Gear mesh type invalid.")) := by
  refine ⟨?_, ?_, fun h1 h2 => ?_⟩
  · simp [calcZI, div_div]
  · simp [calcZI, div_div]
  · simp [calcZI, h1, h2]

/-- Witness for C5 at concrete inputs, including an unrecognized mesh
type. -/
theorem c5_ZI_mesh_type_witness :
    calcZI 1 (1/2) 3 3 "External" = .ok (1 * (1/2) * 3 / (2 * 3 * (3 + 1))) ∧
    calcZI 1 (1/2) 3 3 "Bevel" =
      .error (.valueError "Gear mesh type invalid.") :=
  ⟨(c5_ZI_mesh_type 1 (1/2) 3 3 "Bevel").1,
   (c5_ZI_mesh_type 1 (1/2) 3 3 "Bevel").2.2 (by decide) (by decide)⟩

/-- Claim C7: in each 1-D pass of the 2-D interpolator, a query strictly below
`x[0]` (the minimum sample, given the ascending-endpoints hypothesis)
evaluates to `y_vals[0] + slope·(xq − x[0])` with the first segment's secant
slope, and a query strictly above `x[-1]` evaluates with the last segment's
secant slope — in both cases independently of the interior Akima
interpolant `akima`, i.e. the extrapolation is linear, never cubic. -/
theorem c7_linear_extrapolation (akima : ℚ → ℚ) (x yvals : List ℚ) (xq : ℚ)
    (hx : x.getD 0 0 ≤ x.getD (x.length - 1) 0) :
    (xq < x.getD 0 0 →
      akimaWithExtrapolation akima x yvals xq =
        yvals.getD 0 0 +
          (yvals.getD 1 0 - yvals.getD 0 0) / (x.getD 1 0 - x.getD 0 0) *
            (xq - x.getD 0 0)) ∧
    (x.getD (x.length - 1) 0 < xq →
      akimaWithExtrapolation akima x yvals xq =
        yvals.getD (yvals.length - 1) 0 +
          (yvals.getD (yvals.length - 1) 0 - yvals.getD (yvals.length - 2) 0) /
              (x.getD (x.length - 1) 0 - x.getD (x.length - 2) 0) *
            (xq - x.getD (x.length - 1) 0)) := by
  constructor
  · intro h
    have h2 : ¬ (x.getD (x.length - 1) 0 < xq) :=
      not_lt.mpr (le_of_lt (lt_of_lt_of_le h hx))
    unfold akimaWithExtrapolation
    rw [if_neg h2, if_pos h]
  · intro h
    unfold akimaWithExtrapolation
    rw [if_pos h]

/-- Witness for C7 on the concrete table `x = [1,2,3]`,
`y_vals = [10,20,40]`, with a deliberately constant stand-in for the interior
Akima interpolant: left extrapolation at `xq = 0` and right extrapolation at
`xq = 5`. -/
theorem c7_linear_extrapolation_witness :
    akimaWithExtrapolation (fun _ => 999) [1, 2, 3] [10, 20, 40] 0 = 0 ∧
    akimaWithExtrapolation (fun _ => 999) [1, 2, 3] [10, 20, 40] 5 = 80 := by
  have hl :=
    (c7_linear_extrapolation (fun _ => 999) [1, 2, 3] [10, 20, 40] 0
      (by norm_num)).1 (by norm_num)
  have hr :=
    (c7_linear_extrapolation (fun _ => 999) [1, 2, 3] [10, 20, 40] 5
      (by norm_num)).2 (by norm_num)
  rw [hl, hr]
  norm_num

/-- Claim C8: gear construction with helix angle `psi = 0` (degrees) takes the
guarded `else` branch and yields axial pitch `p_x = 0` (the quotient
`p_t / tan(psi)` is never formed); for every nonzero `psi` the axial pitch
is `p_t / tan(psi_radians)`, for any trigonometric collaborators. -/
theorem c8_axial_pitch (t : TrigParams) (m_n z psi_deg phi_n_deg : ℚ) :
    (psi_deg = 0 → (gearGeometry t m_n z psi_deg phi_n_deg).p_x = 0) ∧
    (psi_deg ≠ 0 → (gearGeometry t m_n z psi_deg phi_n_deg).p_x =
      (gearGeometry t m_n z psi_deg phi_n_deg).p_t /
        t.tanq (psi_deg * t.piq / 180)) := by
  constructor <;> intro h <;> simp [gearGeometry, h]

/-- Witness for C8 with a concrete trigonometric stand-in: a spur gear
(`psi = 0`) gets `p_x = 0`, a helical gear (`psi = 10`) gets
`p_x = p_t / tan(psi)` (= `p_t / 2` for this stand-in tangent). -/
theorem c8_axial_pitch_witness :
    (gearGeometry ⟨157/50, fun _ => 1, fun _ => 2, fun q => q⟩ 3 20 0 20).p_x
      = 0 ∧
    (gearGeometry ⟨157/50, fun _ => 1, fun _ => 2, fun q => q⟩ 3 20 10 20).p_x
      = (gearGeometry ⟨157/50, fun _ => 1, fun _ => 2, fun q => q⟩
          3 20 10 20).p_t / 2 :=
  ⟨(c8_axial_pitch ⟨157/50, fun _ => 1, fun _ => 2, fun q => q⟩ 3 20 0 20).1
      rfl,
   (c8_axial_pitch ⟨157/50, fun _ => 1, fun _ => 2, fun q => q⟩ 3 20 10 20).2
      (by decide)⟩

/-- Claim C9: `updateEFs` / `updateETs` are append-only dedup merges: the previous
collection is an unchanged prefix of the result (never shrinks, original
order kept); an incoming element already present keeps its multiplicity
(it is not appended a second time); and an element not previously present is
appended at most once. -/
theorem c9_update_dedup (efs newF : List Force) (ets newT : List Torque) :
    (∃ rest, updateEFs efs newF = efs ++ rest) ∧
    (∀ f, f ∈ efs → (updateEFs efs newF).count f = efs.count f) ∧
    (∀ f, f ∉ efs → (updateEFs efs newF).count f ≤ 1) ∧
    (∃ rest, updateETs ets newT = ets ++ rest) ∧
    (∀ t, t ∈ ets → (updateETs ets newT).count t = ets.count t) ∧
    (∀ t, t ∉ ets → (updateETs ets newT).count t ≤ 1) := by
  refine ⟨updateList_extends newF efs,
    fun f hf => updateList_count_of_mem newF efs f hf,
    fun f hf => updateList_count_le_one newF efs f ?_,
    updateList_extends newT ets,
    fun t ht => updateList_count_of_mem newT ets t ht,
    fun t ht => updateList_count_le_one newT ets t ?_⟩
  · rw [List.count_eq_zero.mpr hf]; exact Nat.zero_le 1
  · rw [List.count_eq_zero.mpr ht]; exact Nat.zero_le 1

/-- Witness for C9: a force already present is not duplicated, a twice-sent
new force lands exactly once, and the original collection stays a prefix. -/
theorem c9_update_dedup_witness :
    (∃ rest,
      updateEFs [⟨⟨1, 0, 0⟩, V3.zero⟩]
          [⟨⟨1, 0, 0⟩, V3.zero⟩, ⟨⟨2, 0, 0⟩, V3.zero⟩, ⟨⟨2, 0, 0⟩, V3.zero⟩] =
        [⟨⟨1, 0, 0⟩, V3.zero⟩] ++ rest) ∧
    (updateEFs [⟨⟨1, 0, 0⟩, V3.zero⟩]
        [⟨⟨1, 0, 0⟩, V3.zero⟩, ⟨⟨2, 0, 0⟩, V3.zero⟩,
          ⟨⟨2, 0, 0⟩, V3.zero⟩]).count ⟨⟨1, 0, 0⟩, V3.zero⟩ =
      ([⟨⟨1, 0, 0⟩, V3.zero⟩] : List Force).count ⟨⟨1, 0, 0⟩, V3.zero⟩ ∧
    (updateEFs [⟨⟨1, 0, 0⟩, V3.zero⟩]
        [⟨⟨1, 0, 0⟩, V3.zero⟩, ⟨⟨2, 0, 0⟩, V3.zero⟩,
          ⟨⟨2, 0, 0⟩, V3.zero⟩]).count ⟨⟨2, 0, 0⟩, V3.zero⟩ ≤ 1 := by
  have h := c9_update_dedup [⟨⟨1, 0, 0⟩, V3.zero⟩]
    [⟨⟨1, 0, 0⟩, V3.zero⟩, ⟨⟨2, 0, 0⟩, V3.zero⟩, ⟨⟨2, 0, 0⟩, V3.zero⟩] [] []
  exact ⟨h.1, h.2.1 _ (by decide), h.2.2.1 _ (by decide)⟩

/-- Claim C6: `solve` on a gear with zero registered meshes reports the
"unconfigured" status and leaves the entire shared state (gear EFs/ETs,
meshes, shaft) untouched; the outcome is a status value, not an error. -/
theorem c6_solve_unconfigured (sq : ℚ → ℚ) (s : Sys) (h : s.meshes = []) :
    solve sq s = (.unconfigured, s) := by
  simp [solve, h]

/-- Concrete gear system with no meshes, empty EFs/ETs. -/
def c6Sys : Sys :=
  ⟨"G", ⟨0, 0, 1⟩, V3.zero, [], [], [], ⟨0, 0, 1⟩, [], [],
    4, 4, 0, 1, 0, 0, 1, 0, 0⟩

/-- Witness for C6 at the concrete mesh-less gear. -/
theorem c6_solve_unconfigured_witness :
    solve ratSqrt c6Sys = (.unconfigured, c6Sys) :=
  c6_solve_unconfigured ratSqrt c6Sys rfl

theorem classifyFold_extends (s : Sys) (ms : List MeshState) :
    ∀ c : Classification,
      ∃ rest, (ms.foldl (classifyStep s) c).efs = c.efs ++ rest := by
  induction ms with
  | nil => intro c; exact ⟨[], by simp⟩
  | cons m tl ih =>
    intro c
    obtain ⟨r1, hr1⟩ := ih (classifyStep s c m)
    have hstep : ∃ r0, (classifyStep s c m).efs = c.efs ++ r0 := by
      unfold classifyStep
      by_cases hz : m.F.force = V3.zero
      · exact ⟨[], by simp [hz]⟩
      · simp only [hz, if_false, ite_false]
        exact updateList_extends _ _
    obtain ⟨r0, hr0⟩ := hstep
    refine ⟨r0 ++ r1, ?_⟩
    rw [List.foldl_cons, hr1, hr0, List.append_assoc]

theorem classify_efs_extends (s : Sys) :
    ∃ rest, (classifySolvability s).efs = s.gearEFs ++ rest :=
  classifyFold_extends s s.meshes
    ⟨if s.gearETs.isEmpty then 1 else 0, 0, none, s.gearEFs⟩

/-- Claim C1 (amended): when the classification pass finds more than one unresolved
unknown, `solve` reports the "not solvable" status and leaves the gear's ETs,
every mesh's force fields and the shaft's EFs/ETs exactly as they were — but
the gear's own EFs are only *extended* (by the sign-flipped forces of the
already-resolved meshes registered during classification), not restored:
the final state is the initial state with `gearEFs` grown by some suffix. -/
theorem c1_not_solvable (sq : ℚ → ℚ) (s : Sys)
    (h1 : s.meshes ≠ [])
    (h2 : checkTorqueEquilibrium s = false)
    (h3 : 1 < (classifySolvability s).unknownFs +
      (classifySolvability s).unknownTs) :
    ∃ rest, solve sq s =
      (.notSolvable, { s with gearEFs := s.gearEFs ++ rest }) := by
  obtain ⟨rest, hrest⟩ := classify_efs_extends s
  refine ⟨rest, ?_⟩
  have hne : s.meshes.isEmpty = false := by
    cases hm : s.meshes with
    | nil => exact absurd hm h1
    | cons a l => rfl
  simp only [solve, hne, h2, Bool.false_eq_true, if_false, h3, if_true]
  rw [hrest]

/-- Mesh with an already-resolved (nonzero) resultant force, driven by gear
"A". -/
def c1MeshKnown : MeshState :=
  ⟨"m1", "A", [⟨1, 0, 0⟩], ⟨0, 0, 0⟩, ⟨V3.zero, V3.zero⟩, ⟨V3.zero, V3.zero⟩,
    ⟨V3.zero, V3.zero⟩, ⟨⟨1, 0, 0⟩, V3.zero⟩⟩

/-- Mesh whose resultant force is still the zero vector. -/
def c1MeshZero : MeshState :=
  ⟨"m2", "B", [⟨1, 0, 0⟩], ⟨0, 0, 0⟩, ⟨V3.zero, V3.zero⟩, ⟨V3.zero, V3.zero⟩,
    ⟨V3.zero, V3.zero⟩, ⟨V3.zero, V3.zero⟩⟩

/-- Gear "A" with empty ETs (one torque unknown), one resolved mesh and one
unresolved mesh: two unknowns in total, so `solve` must report "not
solvable". -/
def c1Sys : Sys :=
  ⟨"A", ⟨0, 0, 1⟩, V3.zero, [], [], [c1MeshKnown, c1MeshZero], ⟨0, 0, 1⟩,
    [], [], 4, 4, 0, 1, 0, 0, 1, 0, 0⟩

/-- Witness for C1 (amended) at the concrete two-unknown gear. -/
theorem c1_not_solvable_witness :
    ∃ rest, solve ratSqrt c1Sys =
      (.notSolvable, { c1Sys with gearEFs := c1Sys.gearEFs ++ rest }) :=
  c1_not_solvable ratSqrt c1Sys (by decide) (by decide) (by decide)

/-- Counterexample to C1 as stated: on the two-unknown gear `c1Sys`, `solve`
does report "not solvable" but does NOT leave all shared state unmutated —
the gear's EFs have changed (the resolved mesh's sign-flipped force was
registered during the classification pass and persists). -/
theorem c1_counterexample :
    (solve ratSqrt c1Sys).1 = SolveStatus.notSolvable ∧
    (solve ratSqrt c1Sys).2.gearEFs ≠ c1Sys.gearEFs := by decide

/-- Claim C2 (amended): after `calculateForces` resolves a mesh, the mesh resultant
`F` equals the vector sum of the three *stored* components
`F_t + F_r + F_a`; the force registered into the resolving gear's EFs (at
the mesh location) is however built from the raw intermediate values before
the sign / negation adjustments, so it equals the negation of the resultant
when this gear is the mesh's driving gear, and equals the resultant for the
driven gear exactly when the raw axial component vanishes. -/
theorem c2_mesh_resultant (sq : ℚ → ℚ) (s : Sys) (mesh : MeshState)
    (h : mesh.radiality.length = 1) :
    ((updatedMesh sq s mesh).F.force =
      (updatedMesh sq s mesh).Ft.force + (updatedMesh sq s mesh).Fr.force +
        (updatedMesh sq s mesh).Fa.force) ∧
    ((calculateForcesSys sq s mesh).gearEFs =
      updateEFs s.gearEFs [registeredForce sq s mesh]) ∧
    (s.gearName = mesh.drivingGearName →
      (registeredForce sq s mesh).force =
        -((updatedMesh sq s mesh).F.force)) ∧
    (s.gearName ≠ mesh.drivingGearName →
      (rawSplitSingle sq s mesh).2.2 = V3.zero →
      (registeredForce sq s mesh).force = (updatedMesh sq s mesh).F.force) := by
  refine ⟨rfl, rfl, fun hd => ?_, fun hd hz => ?_⟩
  · simp only [registeredForce, updatedMesh, meshSign, h, hd,
      eq_self_iff_true, if_true, ite_true]
    generalize rawSplitSingle sq s mesh = r
    obtain ⟨r1, r2, r3⟩ := r
    simp only [V3.smul_def, V3.neg_def, V3.add_def, V3.mk.injEq]
    refine ⟨by ring, by ring, by ring⟩
  · simp only [registeredForce, updatedMesh, meshSign, h, hd,
      eq_self_iff_true, if_true, ite_true, if_false, ite_false]
    rw [hz]
    generalize rawSplitSingle sq s mesh = r
    obtain ⟨r1, r2, r3⟩ := r
    simp only [V3.smul_def, V3.neg_def, V3.add_def, V3.zero, V3.mk.injEq]
    refine ⟨by ring, by ring, by ring⟩

/-- Mesh about to be resolved by its driving gear "A": zero force fields,
single radiality vector, located at `(0,0,7)`. -/
def c2Mesh : MeshState :=
  ⟨"m", "A", [⟨1, 0, 0⟩], ⟨0, 0, 7⟩, ⟨V3.zero, V3.zero⟩, ⟨V3.zero, V3.zero⟩,
    ⟨V3.zero, V3.zero⟩, ⟨V3.zero, V3.zero⟩⟩

/-- Spur driving gear "A" (`tan(phi_n) = 0`, `psi = 0`) with a known net
torque `(0,0,2)` and pitch diameter 4, about to resolve `c2Mesh`. -/
def c2Sys : Sys :=
  ⟨"A", ⟨0, 0, 1⟩, V3.zero, [], [⟨⟨0, 0, 2⟩, V3.zero⟩], [c2Mesh], ⟨0, 0, 1⟩,
    [], [], 4, 4, 0, 1, 0, 0, 1, 0, 0⟩

/-- Witness for C2 (amended) at the concrete driving-gear resolution. -/
theorem c2_mesh_resultant_witness :
    (updatedMesh ratSqrt c2Sys c2Mesh).F.force =
      (updatedMesh ratSqrt c2Sys c2Mesh).Ft.force +
        (updatedMesh ratSqrt c2Sys c2Mesh).Fr.force +
        (updatedMesh ratSqrt c2Sys c2Mesh).Fa.force ∧
    (registeredForce ratSqrt c2Sys c2Mesh).force =
      -((updatedMesh ratSqrt c2Sys c2Mesh).F.force) := by
  have hh := c2_mesh_resultant ratSqrt c2Sys c2Mesh (by decide)
  exact ⟨hh.1, hh.2.2.1 rfl⟩

/-- Counterexample to C2 as stated: resolving `c2Mesh` from its driving gear
stores the resultant `(0,-1000,0)` on the mesh, but registers the force
`(0,1000,0)` (at the mesh location) into the gear's EFs — the registered
force does not equal the mesh resultant. -/
theorem c2_counterexample :
    ((calculateForcesSys ratSqrt c2Sys c2Mesh).meshes.headD c2Mesh).F.force =
      ⟨0, -1000, 0⟩ ∧
    (calculateForcesSys ratSqrt c2Sys c2Mesh).gearEFs =
      [⟨⟨0, 1000, 0⟩, ⟨0, 0, 7⟩⟩] ∧
    (⟨0, 1000, 0⟩ : V3) ≠ ⟨0, -1000, 0⟩ := by
  norm_num [calculateForcesSys, updatedMesh, registeredForce, rawSplitSingle,
    netTorque, meshSign, ratSign, updateEFs, updateList, c2Sys, c2Mesh,
    V3.zero, V3.cross, V3.habs, V3.sum, V3.hmul, Force.moment, List.foldl,
    List.headD, V3.mk.injEq]

/-- Populated gear attribute state: `sigma_max_fatigue` already computed, as
after `calculateSigmaMaxFatigue`. -/
def c3PopBend : BendState := ⟨none, none, none, none, some 100, none⟩

/-- Claim C3: the reliability branch of `calculateBendingSF`.  An exact table hit
`rel = 0.99` stores `Y_Z = 1`; but a between-entries query such as
`rel = 0.75` does NOT produce a linear interpolation — the call aborts with
`IndexError` (the scalar result of `np.interp` is subscripted with `[0]`)
and `Y_Z` is never assigned. -/
theorem c3_reliability_factor_eval :
    (calcBendingSF (fun _ _ => 1) c3PopBend 1 1 1 1 20 (99/100)).1.Y_Z =
      some 1 ∧
    (calcBendingSF (fun _ _ => 1) c3PopBend 1 1 1 1 20 (3/4)).2 =
      Except.error PyErr.indexError ∧
    (calcBendingSF (fun _ _ => 1) c3PopBend 1 1 1 1 20 (3/4)).1.Y_Z =
      none := by
  norm_num [calcBendingSF, c3PopBend, relRef, yzRef, lookupFirst]

/-- Claim C10 (amended): on a freshly constructed gear (`sigma_max_fatigue`,
`Y_theta` and the other analysis attributes all unset), `calculateBendingSF`
with a table-resolvable `rel` never returns a bending safety factor: for any
temperature it fails with the missing-attribute error on
`sigma_max_fatigue` (which the expression reads before `Y_theta`), and
`Y_theta` ends up assigned (to 1) exactly when `temp ≤ 120`. -/
theorem c10_fresh_bending (powq : ℚ → ℚ → ℚ) (sFP bYN eYN N temp rel : ℚ)
    (hrel : rel ∈ relRef) :
    (calcBendingSF powq freshBend sFP bYN eYN N temp rel).2 =
      Except.error (PyErr.attributeError "sigma_max_fatigue") ∧
    (calcBendingSF powq freshBend sFP bYN eYN N temp rel).1.Y_theta =
      (if temp ≤ 120 then some 1 else none) := by
  by_cases ht : temp ≤ 120 <;> simp [calcBendingSF, freshBend, hrel, ht]

/-- Witness for C10 (amended) at `temp = 130 > 120`, `rel = 0.99`: the call
fails with the missing-attribute error and `Y_theta` is never assigned. -/
theorem c10_fresh_bending_witness :
    (calcBendingSF (fun _ _ => 1) freshBend 1 1 1 1 130 (99/100)).2 =
      Except.error (PyErr.attributeError "sigma_max_fatigue") ∧
    (calcBendingSF (fun _ _ => 1) freshBend 1 1 1 1 130 (99/100)).1.Y_theta =
      none := by
  have h := c10_fresh_bending (fun _ _ => 1) 1 1 1 1 130 (99/100)
    (by norm_num [relRef])
  refine ⟨h.1, ?_⟩
  rw [h.2]
  norm_num

/-- Counterexample to C10 as stated: on a freshly constructed gear with
`temp = 100 ≤ 120`, `Y_theta` IS set to 1, yet no bending safety factor is
produced — the final expression still fails with a missing-attribute error
(on `sigma_max_fatigue`), contradicting the claim that for `temp ≤ 120` a
result is produced. -/
theorem c10_counterexample :
    (calcBendingSF (fun _ _ => 1) freshBend 1 1 1 1 100 (99/100)).2 =
      Except.error (PyErr.attributeError "sigma_max_fatigue") ∧
    (calcBendingSF (fun _ _ => 1) freshBend 1 1 1 1 100 (99/100)).1.Y_theta =
      some 1 ∧ ((100 : ℚ) ≤ 120) := by
  norm_num [calcBendingSF, freshBend, relRef]
